import Mathlib

/-!
Verification of the DrQ training program (`train.py`): the rollout loop
`Workspace.run`, the evaluation routine `Workspace.evaluate`, the
environment factory `make_env`, and the replay-buffer interface the loop
drives.  The training loop, evaluation and environment construction are
embedded from `train.py`; the `ReplayBuffer` class itself lives in
`replay_buffer.py`, which is not among the sources, so its state and
insert effect are modelled from the spec (marked below).  External
collaborators (the robosuite simulator, the learner network, logging and
video I/O) are abstracted behind function-valued parameters.
-/

/-- Pixel observations: a flat list of integer pixel values (the spec's
fixed-shape integer image tensor, flattened). -/
abbrev Obs := List Int

/-- Actions: fixed-length numeric vectors with rational entries. -/
abbrev ActionVec := List Rat

/-- One stored transition: the six fields passed to `replay_buffer.add`
at train.py lines 221-222, in their call order
`(obs, action, reward, next_obs, done, done_no_max)`.  `done` and
`done_no_max` are the 0/1 floats the loop computes at lines 217-218. -/
structure Transition where
  obs : Obs
  action : ActionVec
  reward : Rat
  next_obs : Obs
  done : Rat
  done_no_max : Rat
deriving DecidableEq

/-- Modelled from the spec: the `ReplayBuffer` class is defined in
`replay_buffer.py`, which is not among the sources (only its caller
`train.py` is).  Its state follows spec section 3: fixed `capacity`,
`size` (number of valid rows), `write_index` (next slot to overwrite),
parallel row storage, plus the configuration recorded at construction. -/
structure ReplayBuffer where
  obs_shape : List Nat
  action_shape : List Nat
  capacity : Nat
  image_pad : Nat
  device : String
  data : List (Option Transition)
  size : Nat
  write_index : Nat
deriving DecidableEq

/-- Modelled from the spec: buffer construction (spec section 6) with the
arguments `train.py` supplies; rows start empty, `size = 0`,
`write_index = 0`. -/
def mkReplayBuffer (obs_shape action_shape : List Nat) (capacity image_pad : Nat)
    (device : String) : ReplayBuffer :=
  { obs_shape := obs_shape, action_shape := action_shape, capacity := capacity,
    image_pad := image_pad, device := device,
    data := List.replicate capacity none, size := 0, write_index := 0 }

/-- Modelled from the spec: insert effect of spec section 4.1 — copy the six
values into the row at `write_index`, then
`write_index = (write_index + 1) mod capacity`, then
`size = min (size + 1) capacity`.  (Shape validation raises before any
mutation and is not exercised by the loop, which always passes conforming
values; it is omitted here.) -/
def ReplayBuffer.add (b : ReplayBuffer) (obs : Obs) (action : ActionVec) (reward : Rat)
    (next_obs : Obs) (done done_no_max : Rat) : ReplayBuffer :=
  { b with
    data := b.data.set b.write_index
      (some { obs := obs, action := action, reward := reward, next_obs := next_obs,
              done := done, done_no_max := done_no_max }),
    write_index := (b.write_index + 1) % b.capacity,
    size := min (b.size + 1) b.capacity }

/-- A sequence of insertions, applied left to right. -/
def insertAll (b : ReplayBuffer) (ts : List Transition) : ReplayBuffer :=
  ts.foldl (fun acc t => acc.add t.obs t.action t.reward t.next_obs t.done t.done_no_max) b

theorem add_capacity (b : ReplayBuffer) (o : Obs) (a : ActionVec) (r : Rat) (n : Obs)
    (d dn : Rat) : (b.add o a r n d dn).capacity = b.capacity := rfl

theorem insertAll_inv (ts : List Transition) :
    ∀ (b : ReplayBuffer) (m : Nat), b.size = min m b.capacity →
      b.write_index = m % b.capacity →
      (insertAll b ts).capacity = b.capacity ∧
      (insertAll b ts).size = min (m + ts.length) b.capacity ∧
      (insertAll b ts).write_index = (m + ts.length) % b.capacity := by
  induction ts with
  | nil =>
    intro b m h1 h2
    refine ⟨rfl, ?_, ?_⟩
    · simpa [insertAll] using h1
    · simpa [insertAll] using h2
  | cons t ts ih =>
    intro b m h1 h2
    have hstep : insertAll b (t :: ts) =
        insertAll (b.add t.obs t.action t.reward t.next_obs t.done t.done_no_max) ts := rfl
    have hcap : (b.add t.obs t.action t.reward t.next_obs t.done t.done_no_max).capacity =
        b.capacity := rfl
    have hsize : (b.add t.obs t.action t.reward t.next_obs t.done t.done_no_max).size =
        min (m + 1) b.capacity := by
      show min (b.size + 1) b.capacity = min (m + 1) b.capacity
      rw [h1]; omega
    have hw : (b.add t.obs t.action t.reward t.next_obs t.done t.done_no_max).write_index =
        (m + 1) % b.capacity := by
      show (b.write_index + 1) % b.capacity = (m + 1) % b.capacity
      rw [h2, Nat.mod_add_mod]
    have := ih (b.add t.obs t.action t.reward t.next_obs t.done t.done_no_max) (m + 1)
      (by rw [hsize, hcap]) (by rw [hw, hcap])
    rw [hstep]
    refine ⟨by rw [this.1, hcap], ?_, ?_⟩
    · rw [this.2.1, hcap]
      have hlen : m + 1 + ts.length = m + (t :: ts).length := by
        simp only [List.length_cons]; omega
      rw [hlen]
    · rw [this.2.2, hcap]
      have hlen : m + 1 + ts.length = m + (t :: ts).length := by
        simp only [List.length_cons]; omega
      rw [hlen]

/-- C5: for all sequences of insertions into a freshly constructed buffer,
the buffer's size equals `min (#insertions) capacity` and its write index
equals `#insertions mod capacity`. -/
theorem buffer_size_write_index_invariant (os as : List Nat) (cap pad : Nat)
    (dev : String) (ts : List Transition) :
    (insertAll (mkReplayBuffer os as cap pad dev) ts).size = min ts.length cap ∧
    (insertAll (mkReplayBuffer os as cap pad dev) ts).write_index = ts.length % cap := by
  have h := insertAll_inv ts (mkReplayBuffer os as cap pad dev) 0
    (by simp [mkReplayBuffer]) (by simp [mkReplayBuffer])
  refine ⟨?_, ?_⟩
  · have := h.2.1
    simpa [mkReplayBuffer] using this
  · have := h.2.2
    simpa [mkReplayBuffer] using this

/-- The configuration values of `config.yaml` that `train.py` reads
(`cfg.<field>` accesses in `Workspace.__init__`, `evaluate` and `run`). -/
structure Cfg where
  seed : Nat
  num_train_steps : Nat
  num_seed_steps : Nat
  num_train_iters : Nat
  eval_frequency : Nat
  num_eval_episodes : Nat
  replay_buffer_capacity : Nat
  image_pad : Nat
  device : String
  frame_stack : Nat

/-- Result of one `env.step(action)` call: `(obs, reward, done, info)` with
the (unused) `info` dictionary dropped, plus the simulator's next internal
state. -/
structure StepResult (σ : Type) where
  obs : Obs
  reward : Rat
  done : Bool
  state : σ

/-- The external environment collaborator (robosuite `GymWrapper` wrapped in
`utils.FrameStack`), abstracted at its interface: observation/action space
shapes, the `_max_episode_steps` attribute, `reset`, `step`, and
`action_space.sample()` (a read of the ambient random source, modelled as a
function of the simulator state). `σ` is the simulator's internal state. -/
structure Env (σ : Type) where
  obs_shape : List Nat
  action_shape : List Nat
  max_episode_steps : Nat
  reset : σ → Obs × σ
  step : σ → ActionVec → StepResult σ
  sampleAction : σ → ActionVec

/-- `make_env` (train.py lines 29-112): builds the external robosuite
environment (out of scope, supplied here as `base`) and hard-codes
`env._max_episode_steps = 250` at line 104.  `utils.FrameStack` (line 106)
and `env.seed` (line 108) are external wrappers that leave
`_max_episode_steps` unchanged. -/
def make_env {σ : Type} (cfg : Cfg) (base : Env σ) : Env σ :=
  { base with max_episode_steps := 250 }

/-- The learner collaborator: `agent.act(obs, sample)`.  `agent.update`
mutates only the agent's own networks and reads the buffer, so it is
recorded as an event rather than a state change. -/
structure Agent where
  act : Obs → Bool → ActionVec

/-- Observable events of the training loop: a learner update
(`agent.update`, which samples the buffer), an environment step
(`env.step` inside the rollout), and a buffer insertion
(`replay_buffer.add`) carrying the inserted transition. -/
inductive Event where
  | update : Event
  | envStep : Event
  | insert : Transition → Event
deriving DecidableEq

def Event.isUpdate : Event → Bool
  | Event.update => true
  | _ => false

def countInserts : List Event → Nat
  | [] => 0
  | Event.insert _ :: rest => countInserts rest + 1
  | _ :: rest => countInserts rest

def countEnvSteps : List Event → Nat
  | [] => 0
  | Event.envStep :: rest => countEnvSteps rest + 1
  | _ :: rest => countEnvSteps rest

/-- The transitions carried by the insert events of a trace, in order. -/
def insertedTransitions : List Event → List Transition
  | [] => []
  | Event.insert t :: rest => t :: insertedTransitions rest
  | _ :: rest => insertedTransitions rest

/-- The mutable state of `Workspace.run` (train.py line 174 and onwards):
the step counter `self.step`, the episode bookkeeping locals, the current
observation, the simulator state, and the replay buffer. -/
structure RunState (σ : Type) where
  step : Nat
  episode : Nat
  episode_step : Nat
  episode_reward : Rat
  done : Bool
  obs : Obs
  env_state : σ
  buffer : ReplayBuffer

/-- The inner `while not done` rollout of one evaluation episode
(train.py lines 158-164): act with `sample=False` under `eval_mode`, step
the environment, accumulate reward.  `fuel` bounds the source's unbounded
while loop; video recording and logging are external I/O and omitted. -/
def evalEpisodeLoop {σ : Type} (env : Env σ) (agent : Agent) :
    Nat → Obs → σ → Rat → Rat × σ
  | 0, _, st, er => (er, st)
  | fuel + 1, obs, st, er =>
    let action := agent.act obs false
    let r := env.step st action
    if r.done then (er + r.reward, r.state)
    else evalEpisodeLoop env agent fuel r.obs r.state (er + r.reward)

/-- The `for episode in range(num_eval_episodes)` loop of
`Workspace.evaluate` (train.py lines 152-167): reset, roll one episode,
accumulate its reward into the running total. -/
def evalEpisodes {σ : Type} (cfg : Cfg) (env : Env σ) (agent : Agent)
    (fuel : Nat) : Nat → σ → Rat → Rat × σ
  | 0, st, acc => (acc, st)
  | n + 1, st, acc =>
    let rr := env.reset st
    let res := evalEpisodeLoop env agent fuel rr.1 rr.2 0
    evalEpisodes cfg env agent fuel n res.2 (acc + res.1)

/-- `Workspace.evaluate` (train.py lines 149-171): runs
`cfg.num_eval_episodes` evaluation episodes on the shared environment and
logs the average episode reward.  It reads the agent and steps the
environment but never touches the replay buffer. -/
def Workspace.evaluate {σ : Type} (cfg : Cfg) (env : Env σ) (agent : Agent)
    (fuel : Nat) (s : RunState σ) : RunState σ × Rat :=
  let res := evalEpisodes cfg env agent fuel cfg.num_eval_episodes s.env_state 0
  ({ s with env_state := res.2 }, res.1 / (cfg.num_eval_episodes : Rat))

/-- The `if done:` block of `Workspace.run` (train.py lines 177-199):
periodic evaluation when `step % eval_frequency == 0`, then
`obs = env.reset()`, `done = False`, `episode_reward = 0`,
`episode_step = 0`, `episode += 1`.  Logging calls are external I/O and
omitted. -/
def doneBranch {σ : Type} (cfg : Cfg) (env : Env σ) (agent : Agent)
    (fuel : Nat) (s : RunState σ) : RunState σ :=
  if s.done then
    let s1 := if s.step % cfg.eval_frequency = 0
      then (Workspace.evaluate cfg env agent fuel s).1 else s
    let rr := env.reset s1.env_state
    { s1 with
      obs := rr.1, env_state := rr.2, done := false,
      episode_reward := 0, episode_step := 0, episode := s1.episode + 1 }
  else s

/-- Action selection (train.py lines 202-206): a random action from the
action space during the seeding phase (`step < num_seed_steps`), otherwise
`agent.act(obs, sample=True)` under `eval_mode`. -/
def chooseAction {σ : Type} (cfg : Cfg) (env : Env σ) (agent : Agent)
    (s : RunState σ) : ActionVec :=
  if s.step < cfg.num_seed_steps then env.sampleAction s.env_state
  else agent.act s.obs true

/-- The training-update block (train.py lines 209-212): when
`step >= num_seed_steps`, `agent.update(replay_buffer, logger, step)` runs
`num_train_iters` times; each run samples the buffer. -/
def updateEvents (cfg : Cfg) (step : Nat) : List Event :=
  if cfg.num_seed_steps ≤ step then List.replicate cfg.num_train_iters Event.update
  else []

/-- Line 217 of train.py: `done = float(done)`. -/
def floatDone (d : Bool) : Rat := if d then 1 else 0

/-- Line 218 of train.py:
`done_no_max = 0 if episode_step + 1 == self.env._max_episode_steps else done`. -/
def done_no_max_calc (episode_step max_steps : Nat) (done : Rat) : Rat :=
  if episode_step + 1 = max_steps then 0 else done

/-- One iteration of the `while self.step < num_train_steps` loop body of
`Workspace.run` (train.py lines 177-226): the `if done:` block, action
selection, the learner updates, `env.step(action)`, the
`done`/`done_no_max` computation, `replay_buffer.add(obs, action, reward,
next_obs, done, done_no_max)`, and the bookkeeping increments.  Returns
the new state together with the iteration's event trace. -/
def runBody {σ : Type} (cfg : Cfg) (env : Env σ) (agent : Agent) (fuel : Nat)
    (s : RunState σ) : RunState σ × List Event :=
  let s1 := doneBranch cfg env agent fuel s
  let action := chooseAction cfg env agent s1
  let r := env.step s1.env_state action
  let d := floatDone r.done
  let dnm := done_no_max_calc s1.episode_step env.max_episode_steps d
  ({ s1 with
       obs := r.obs, env_state := r.state,
       episode_reward := s1.episode_reward + r.reward,
       episode_step := s1.episode_step + 1, step := s1.step + 1, done := r.done,
       buffer := s1.buffer.add s1.obs action r.reward r.obs d dnm },
   updateEvents cfg s1.step ++
     [Event.envStep,
      Event.insert { obs := s1.obs, action := action, reward := r.reward,
                     next_obs := r.obs, done := d, done_no_max := dnm }])

/-- The `while self.step < num_train_steps` loop of `Workspace.run`,
with explicit iteration fuel `k`; since `self.step` grows by exactly one
per iteration, fuel `num_train_steps` reaches the loop's exit condition. -/
def runLoop {σ : Type} (cfg : Cfg) (env : Env σ) (agent : Agent) (fuel : Nat) :
    Nat → RunState σ → RunState σ × List Event
  | 0, s => (s, [])
  | k + 1, s =>
    if s.step < cfg.num_train_steps then
      let r1 := runBody cfg env agent fuel s
      let r2 := runLoop cfg env agent fuel k r1.1
      (r2.1, r1.2 ++ r2.2)
    else (s, [])

/-- The state `Workspace.__init__` (train.py lines 116-147) establishes:
the configuration, the environment from `make_env`, the replay buffer
constructed with `(observation_space.shape, action_space.shape,
cfg.replay_buffer_capacity, cfg.image_pad, self.device)` (lines 140-143),
and `self.step = 0`.  Logger and video recorder are external I/O. -/
structure Workspace (σ : Type) where
  cfg : Cfg
  env : Env σ
  buffer : ReplayBuffer
  step : Nat

def Workspace.init {σ : Type} (cfg : Cfg) (base : Env σ) : Workspace σ :=
  let env := make_env cfg base
  { cfg := cfg, env := env,
    buffer := mkReplayBuffer env.obs_shape env.action_shape
      cfg.replay_buffer_capacity cfg.image_pad cfg.device,
    step := 0 }

/-- Line 174 of train.py:
`episode, episode_reward, episode_step, done = 0, 0, 1, True`; `obs` is
unassigned until the first `if done:` reset, so any placeholder value is
faithful (here `[]`). -/
def initRunState {σ : Type} (w : Workspace σ) (es : σ) : RunState σ :=
  { step := w.step, episode := 0, episode_reward := 0, episode_step := 1,
    done := true, obs := [], env_state := es, buffer := w.buffer }

/-- `Workspace.run` (train.py lines 173-226) on an initialized workspace. -/
def Workspace.run {σ : Type} (w : Workspace σ) (agent : Agent) (fuel : Nat)
    (es : σ) : RunState σ × List Event :=
  runLoop w.cfg w.env agent fuel w.cfg.num_train_steps (initRunState w es)

theorem countInserts_append : ∀ l1 l2 : List Event,
    countInserts (l1 ++ l2) = countInserts l1 + countInserts l2 := by
  intro l1 l2
  induction l1 with
  | nil => simp [countInserts]
  | cons e rest ih =>
    cases e <;> simp [countInserts, ih] <;> omega

theorem countEnvSteps_append : ∀ l1 l2 : List Event,
    countEnvSteps (l1 ++ l2) = countEnvSteps l1 + countEnvSteps l2 := by
  intro l1 l2
  induction l1 with
  | nil => simp [countEnvSteps]
  | cons e rest ih =>
    cases e <;> simp [countEnvSteps, ih] <;> omega

theorem insertedTransitions_append : ∀ l1 l2 : List Event,
    insertedTransitions (l1 ++ l2) = insertedTransitions l1 ++ insertedTransitions l2 := by
  intro l1 l2
  induction l1 with
  | nil => simp [insertedTransitions]
  | cons e rest ih =>
    cases e <;> simp [insertedTransitions, ih]

theorem insertedTransitions_length : ∀ l : List Event,
    (insertedTransitions l).length = countInserts l := by
  intro l
  induction l with
  | nil => simp [insertedTransitions, countInserts]
  | cons e rest ih =>
    cases e <;> simp [insertedTransitions, countInserts, ih]

theorem countInserts_replicate_update (n : Nat) :
    countInserts (List.replicate n Event.update) = 0 := by
  induction n with
  | zero => simp [countInserts]
  | succ n ih => simp [List.replicate, countInserts, ih]

theorem countEnvSteps_replicate_update (n : Nat) :
    countEnvSteps (List.replicate n Event.update) = 0 := by
  induction n with
  | zero => simp [countEnvSteps]
  | succ n ih => simp [List.replicate, countEnvSteps, ih]

theorem insertedTransitions_replicate_update (n : Nat) :
    insertedTransitions (List.replicate n Event.update) = [] := by
  induction n with
  | zero => simp [insertedTransitions]
  | succ n ih => simp [List.replicate, insertedTransitions, ih]

/-- `updateEvents` is always a run of update events. -/
theorem updateEvents_eq_replicate (cfg : Cfg) (step : Nat) :
    updateEvents cfg step =
      List.replicate (if cfg.num_seed_steps ≤ step then cfg.num_train_iters else 0)
        Event.update := by
  unfold updateEvents
  split <;> simp

theorem countInserts_updateEvents (cfg : Cfg) (step : Nat) :
    countInserts (updateEvents cfg step) = 0 := by
  rw [updateEvents_eq_replicate, countInserts_replicate_update]

theorem countEnvSteps_updateEvents (cfg : Cfg) (step : Nat) :
    countEnvSteps (updateEvents cfg step) = 0 := by
  rw [updateEvents_eq_replicate, countEnvSteps_replicate_update]

theorem insertedTransitions_updateEvents (cfg : Cfg) (step : Nat) :
    insertedTransitions (updateEvents cfg step) = [] := by
  rw [updateEvents_eq_replicate, insertedTransitions_replicate_update]

theorem evaluate_fst_step {σ : Type} (cfg : Cfg) (env : Env σ) (agent : Agent)
    (fuel : Nat) (s : RunState σ) :
    ((Workspace.evaluate cfg env agent fuel s).1).step = s.step := rfl

theorem evaluate_fst_buffer {σ : Type} (cfg : Cfg) (env : Env σ) (agent : Agent)
    (fuel : Nat) (s : RunState σ) :
    ((Workspace.evaluate cfg env agent fuel s).1).buffer = s.buffer := rfl

theorem doneBranch_step {σ : Type} (cfg : Cfg) (env : Env σ) (agent : Agent)
    (fuel : Nat) (s : RunState σ) :
    (doneBranch cfg env agent fuel s).step = s.step := by
  unfold doneBranch
  split
  · split <;> rfl
  · rfl

theorem doneBranch_buffer {σ : Type} (cfg : Cfg) (env : Env σ) (agent : Agent)
    (fuel : Nat) (s : RunState σ) :
    (doneBranch cfg env agent fuel s).buffer = s.buffer := by
  unfold doneBranch
  split
  · split <;> rfl
  · rfl

theorem runBody_step {σ : Type} (cfg : Cfg) (env : Env σ) (agent : Agent)
    (fuel : Nat) (s : RunState σ) :
    (runBody cfg env agent fuel s).1.step = s.step + 1 := by
  show (doneBranch cfg env agent fuel s).step + 1 = s.step + 1
  rw [doneBranch_step]

theorem runBody_events {σ : Type} (cfg : Cfg) (env : Env σ) (agent : Agent)
    (fuel : Nat) (s : RunState σ) :
    (runBody cfg env agent fuel s).2 =
      updateEvents cfg (doneBranch cfg env agent fuel s).step ++
        [Event.envStep,
         Event.insert
           { obs := (doneBranch cfg env agent fuel s).obs,
             action := chooseAction cfg env agent (doneBranch cfg env agent fuel s),
             reward := (env.step (doneBranch cfg env agent fuel s).env_state
               (chooseAction cfg env agent (doneBranch cfg env agent fuel s))).reward,
             next_obs := (env.step (doneBranch cfg env agent fuel s).env_state
               (chooseAction cfg env agent (doneBranch cfg env agent fuel s))).obs,
             done := floatDone (env.step (doneBranch cfg env agent fuel s).env_state
               (chooseAction cfg env agent (doneBranch cfg env agent fuel s))).done,
             done_no_max := done_no_max_calc (doneBranch cfg env agent fuel s).episode_step
               env.max_episode_steps
               (floatDone (env.step (doneBranch cfg env agent fuel s).env_state
                 (chooseAction cfg env agent (doneBranch cfg env agent fuel s))).done) }] := rfl

theorem runBody_countInserts {σ : Type} (cfg : Cfg) (env : Env σ) (agent : Agent)
    (fuel : Nat) (s : RunState σ) :
    countInserts (runBody cfg env agent fuel s).2 = 1 := by
  rw [runBody_events, countInserts_append, countInserts_updateEvents]
  rfl

theorem runBody_countEnvSteps {σ : Type} (cfg : Cfg) (env : Env σ) (agent : Agent)
    (fuel : Nat) (s : RunState σ) :
    countEnvSteps (runBody cfg env agent fuel s).2 = 1 := by
  rw [runBody_events, countEnvSteps_append, countEnvSteps_updateEvents]
  rfl

theorem runBody_inserted {σ : Type} (cfg : Cfg) (env : Env σ) (agent : Agent)
    (fuel : Nat) (s : RunState σ) :
    insertedTransitions (runBody cfg env agent fuel s).2 =
      [{ obs := (doneBranch cfg env agent fuel s).obs,
         action := chooseAction cfg env agent (doneBranch cfg env agent fuel s),
         reward := (env.step (doneBranch cfg env agent fuel s).env_state
           (chooseAction cfg env agent (doneBranch cfg env agent fuel s))).reward,
         next_obs := (env.step (doneBranch cfg env agent fuel s).env_state
           (chooseAction cfg env agent (doneBranch cfg env agent fuel s))).obs,
         done := floatDone (env.step (doneBranch cfg env agent fuel s).env_state
           (chooseAction cfg env agent (doneBranch cfg env agent fuel s))).done,
         done_no_max := done_no_max_calc (doneBranch cfg env agent fuel s).episode_step
           env.max_episode_steps
           (floatDone (env.step (doneBranch cfg env agent fuel s).env_state
             (chooseAction cfg env agent (doneBranch cfg env agent fuel s))).done) }] := by
  rw [runBody_events, insertedTransitions_append, insertedTransitions_updateEvents]
  rfl

theorem runBody_buffer {σ : Type} (cfg : Cfg) (env : Env σ) (agent : Agent)
    (fuel : Nat) (s : RunState σ) :
    (runBody cfg env agent fuel s).1.buffer =
      insertAll s.buffer (insertedTransitions (runBody cfg env agent fuel s).2) := by
  rw [runBody_inserted]
  show (doneBranch cfg env agent fuel s).buffer.add _ _ _ _ _ _ = _
  rw [doneBranch_buffer]
  rfl

/-- `true` iff some learner-update event occurs after some insertion event
in the trace — the interleaving that claim C7 rules out within one
training step. -/
def updateAfterInsert : List Event → Bool
  | [] => false
  | Event.insert _ :: rest => rest.any Event.isUpdate || updateAfterInsert rest
  | _ :: rest => updateAfterInsert rest

theorem updateAfterInsert_replicate_tail (n : Nat) (t : Transition) :
    updateAfterInsert
      (List.replicate n Event.update ++ [Event.envStep, Event.insert t]) = false := by
  induction n with
  | zero => simp [updateAfterInsert, Event.isUpdate]
  | succ n ih => simpa [List.replicate, updateAfterInsert] using ih

/-- C9: the maximum-episode-step count that triggers the `done_no_max`
time-limit truncation is hard-coded to 250 on the environment at
construction (train.py line 104), whatever the configuration and whatever
the underlying simulator report. -/
theorem max_episode_steps_hard_coded_250 {σ : Type} (cfg cfg2 : Cfg) (base : Env σ) :
    (make_env cfg base).max_episode_steps = 250 ∧
    (make_env cfg base).max_episode_steps = (make_env cfg2 base).max_episode_steps ∧
    (Workspace.init cfg base).env.max_episode_steps = 250 :=
  ⟨rfl, rfl, rfl⟩

/-- C10: `Workspace.evaluate` never mutates the replay buffer — its
contents, size and write index are identical before and after the call,
for any number of evaluation episodes and any episode length. -/
theorem evaluate_preserves_buffer_state {σ : Type} (cfg : Cfg) (env : Env σ)
    (agent : Agent) (fuel : Nat) (s : RunState σ) :
    ((Workspace.evaluate cfg env agent fuel s).1).buffer = s.buffer ∧
    ((Workspace.evaluate cfg env agent fuel s).1).buffer.data = s.buffer.data ∧
    ((Workspace.evaluate cfg env agent fuel s).1).buffer.size = s.buffer.size ∧
    ((Workspace.evaluate cfg env agent fuel s).1).buffer.write_index =
      s.buffer.write_index :=
  ⟨rfl, rfl, rfl, rfl⟩

/-- C7: within one training step of the loop, the learner updates and the
buffer insertion are strictly sequential — no update event ever follows
the (single) insertion of that step. -/
theorem updates_before_insert_within_step {σ : Type} (cfg : Cfg) (env : Env σ)
    (agent : Agent) (fuel : Nat) (s : RunState σ) :
    updateAfterInsert (runBody cfg env agent fuel s).2 = false ∧
    countInserts (runBody cfg env agent fuel s).2 = 1 := by
  refine ⟨?_, runBody_countInserts cfg env agent fuel s⟩
  rw [runBody_events, updateEvents_eq_replicate, updateAfterInsert_replicate_tail]

/-- C4: each iteration of the rollout loop performs exactly one
environment step and exactly one buffer insertion, and the insertion
passes the six transition fields of that step in the fixed order
`(observation, action, reward, next_observation, done, done_no_max)`. -/
theorem one_insert_per_env_step {σ : Type} (cfg : Cfg) (env : Env σ)
    (agent : Agent) (fuel : Nat) (s : RunState σ) :
    countInserts (runBody cfg env agent fuel s).2 = 1 ∧
    countEnvSteps (runBody cfg env agent fuel s).2 = 1 ∧
    insertedTransitions (runBody cfg env agent fuel s).2 =
      [{ obs := (doneBranch cfg env agent fuel s).obs,
         action := chooseAction cfg env agent (doneBranch cfg env agent fuel s),
         reward := (env.step (doneBranch cfg env agent fuel s).env_state
           (chooseAction cfg env agent (doneBranch cfg env agent fuel s))).reward,
         next_obs := (env.step (doneBranch cfg env agent fuel s).env_state
           (chooseAction cfg env agent (doneBranch cfg env agent fuel s))).obs,
         done := floatDone (env.step (doneBranch cfg env agent fuel s).env_state
           (chooseAction cfg env agent (doneBranch cfg env agent fuel s))).done,
         done_no_max := done_no_max_calc (doneBranch cfg env agent fuel s).episode_step
           env.max_episode_steps
           (floatDone (env.step (doneBranch cfg env agent fuel s).env_state
             (chooseAction cfg env agent (doneBranch cfg env agent fuel s))).done) }] ∧
    (runBody cfg env agent fuel s).1.buffer =
      (doneBranch cfg env agent fuel s).buffer.add
        (doneBranch cfg env agent fuel s).obs
        (chooseAction cfg env agent (doneBranch cfg env agent fuel s))
        (env.step (doneBranch cfg env agent fuel s).env_state
          (chooseAction cfg env agent (doneBranch cfg env agent fuel s))).reward
        (env.step (doneBranch cfg env agent fuel s).env_state
          (chooseAction cfg env agent (doneBranch cfg env agent fuel s))).obs
        (floatDone (env.step (doneBranch cfg env agent fuel s).env_state
          (chooseAction cfg env agent (doneBranch cfg env agent fuel s))).done)
        (done_no_max_calc (doneBranch cfg env agent fuel s).episode_step
          env.max_episode_steps
          (floatDone (env.step (doneBranch cfg env agent fuel s).env_state
            (chooseAction cfg env agent (doneBranch cfg env agent fuel s))).done)) :=
  ⟨runBody_countInserts cfg env agent fuel s,
   runBody_countEnvSteps cfg env agent fuel s,
   runBody_inserted cfg env agent fuel s,
   rfl⟩

/-- C1: the `done_no_max` flag of every transition the loop inserts is 0
when the episode's step count reaches the environment's maximum
(`episode_step + 1 == _max_episode_steps`, the local `episode_step` being
the one in force at insertion, i.e. after the `if done:` reset), and
equals the inserted `done` flag otherwise. -/
theorem inserted_done_no_max_rule {σ : Type} (cfg : Cfg) (env : Env σ)
    (agent : Agent) (fuel : Nat) (s : RunState σ) (t : Transition)
    (ht : t ∈ insertedTransitions (runBody cfg env agent fuel s).2) :
    ((doneBranch cfg env agent fuel s).episode_step + 1 = env.max_episode_steps →
      t.done_no_max = 0) ∧
    ((doneBranch cfg env agent fuel s).episode_step + 1 ≠ env.max_episode_steps →
      t.done_no_max = t.done) := by
  rw [runBody_inserted, List.mem_singleton] at ht
  subst ht
  constructor
  · intro h
    simp [done_no_max_calc, h]
  · intro h
    simp [done_no_max_calc, h]

/-- C8: when the environment reports a true terminal (`done = True`) on
exactly the step that reaches the maximum episode step count, the loop
still forces `done_no_max` to 0 — the genuine terminal is recorded as a
time-limit truncation. -/
theorem terminal_at_time_limit_recorded_truncated {σ : Type} (cfg : Cfg)
    (env : Env σ) (agent : Agent) (fuel : Nat) (s : RunState σ)
    (hdone : (env.step (doneBranch cfg env agent fuel s).env_state
      (chooseAction cfg env agent (doneBranch cfg env agent fuel s))).done = true)
    (hmax : (doneBranch cfg env agent fuel s).episode_step + 1 =
      env.max_episode_steps) :
    insertedTransitions (runBody cfg env agent fuel s).2 =
      [{ obs := (doneBranch cfg env agent fuel s).obs,
         action := chooseAction cfg env agent (doneBranch cfg env agent fuel s),
         reward := (env.step (doneBranch cfg env agent fuel s).env_state
           (chooseAction cfg env agent (doneBranch cfg env agent fuel s))).reward,
         next_obs := (env.step (doneBranch cfg env agent fuel s).env_state
           (chooseAction cfg env agent (doneBranch cfg env agent fuel s))).obs,
         done := 1, done_no_max := 0 }] := by
  rw [runBody_inserted]
  simp [hdone, hmax, floatDone, done_no_max_calc]

/-- A concrete environment over a trivial simulator state: every step
reports `done = True`, with a one-step episode limit. -/
def unitEnv : Env Unit :=
  { obs_shape := [1], action_shape := [1], max_episode_steps := 1,
    reset := fun _ => ([0], ()),
    step := fun _ _ => { obs := [0], reward := 0, done := true, state := () },
    sampleAction := fun _ => [0] }

def cfg0 : Cfg :=
  { seed := 0, num_train_steps := 1, num_seed_steps := 1, num_train_iters := 1,
    eval_frequency := 1, num_eval_episodes := 0, replay_buffer_capacity := 1,
    image_pad := 0, device := "cpu", frame_stack := 1 }

def agent0 : Agent := { act := fun _ _ => [0] }

/-- A loop state in the middle of an episode (`done = False`), on the step
whose successor reaches `unitEnv`'s episode limit. -/
def state0 : RunState Unit :=
  { step := 0, episode := 0, episode_step := 0, episode_reward := 0,
    done := false, obs := [0], env_state := (),
    buffer := mkReplayBuffer [1] [1] 1 0 "cpu" }

/-- The transition `runBody cfg0 unitEnv agent0 0 state0` inserts. -/
def t0 : Transition :=
  { obs := [0], action := [0], reward := 0, next_obs := [0],
    done := 1, done_no_max := 0 }

theorem inserted_done_no_max_rule_witness :
    t0 ∈ insertedTransitions (runBody cfg0 unitEnv agent0 0 state0).2 ∧
    (((doneBranch cfg0 unitEnv agent0 0 state0).episode_step + 1 =
        unitEnv.max_episode_steps → t0.done_no_max = 0) ∧
     ((doneBranch cfg0 unitEnv agent0 0 state0).episode_step + 1 ≠
        unitEnv.max_episode_steps → t0.done_no_max = t0.done)) :=
  ⟨by decide, inserted_done_no_max_rule cfg0 unitEnv agent0 0 state0 t0 (by decide)⟩

theorem terminal_at_time_limit_recorded_truncated_witness :
    insertedTransitions (runBody cfg0 unitEnv agent0 0 state0).2 =
      [{ obs := (doneBranch cfg0 unitEnv agent0 0 state0).obs,
         action := chooseAction cfg0 unitEnv agent0 (doneBranch cfg0 unitEnv agent0 0 state0),
         reward := (unitEnv.step (doneBranch cfg0 unitEnv agent0 0 state0).env_state
           (chooseAction cfg0 unitEnv agent0 (doneBranch cfg0 unitEnv agent0 0 state0))).reward,
         next_obs := (unitEnv.step (doneBranch cfg0 unitEnv agent0 0 state0).env_state
           (chooseAction cfg0 unitEnv agent0 (doneBranch cfg0 unitEnv agent0 0 state0))).obs,
         done := 1, done_no_max := 0 }] :=
  terminal_at_time_limit_recorded_truncated cfg0 unitEnv agent0 0 state0
    (by decide) (by decide)

/-- `warmupOK seed c trace = true` iff, scanning the trace with `c` prior
insertions already performed, every update event is preceded by at least
`seed` insertions in total. -/
def warmupOK (seed : Nat) : Nat → List Event → Bool
  | _, [] => true
  | c, Event.update :: rest => decide (seed ≤ c) && warmupOK seed c rest
  | c, Event.envStep :: rest => warmupOK seed c rest
  | c, Event.insert _ :: rest => warmupOK seed (c + 1) rest

theorem warmupOK_append (seed : Nat) : ∀ (l1 l2 : List Event) (c : Nat),
    warmupOK seed c (l1 ++ l2) =
      (warmupOK seed c l1 && warmupOK seed (c + countInserts l1) l2) := by
  intro l1
  induction l1 with
  | nil => intro l2 c; simp [warmupOK, countInserts]
  | cons e rest ih =>
    intro l2 c
    cases e with
    | update => simp [warmupOK, countInserts, ih, Bool.and_assoc]
    | envStep => simp [warmupOK, countInserts, ih]
    | insert t =>
      have harith : c + 1 + countInserts rest = c + (countInserts rest + 1) := by omega
      simp [warmupOK, countInserts, ih, harith]

theorem warmupOK_replicate_update (seed n c : Nat) (h : seed ≤ c) :
    warmupOK seed c (List.replicate n Event.update) = true := by
  induction n with
  | zero => simp [warmupOK]
  | succ n ih => simp [List.replicate, warmupOK, h, ih]

theorem runBody_warmupOK {σ : Type} (cfg : Cfg) (env : Env σ) (agent : Agent)
    (fuel : Nat) (s : RunState σ) (c : Nat) (h : s.step ≤ c) :
    warmupOK cfg.num_seed_steps c (runBody cfg env agent fuel s).2 = true := by
  rw [runBody_events, warmupOK_append, updateEvents_eq_replicate, doneBranch_step]
  have htail : ∀ c2 t, warmupOK cfg.num_seed_steps c2
      [Event.envStep, Event.insert t] = true := by
    intro c2 t; simp [warmupOK]
  rw [htail]
  split
  · rename_i hseed
    rw [warmupOK_replicate_update cfg.num_seed_steps _ c (le_trans hseed h)]
    rfl
  · simp [warmupOK]

theorem runLoop_warmupOK {σ : Type} (cfg : Cfg) (env : Env σ) (agent : Agent)
    (fuel : Nat) : ∀ (k : Nat) (s : RunState σ) (c : Nat), s.step ≤ c →
    warmupOK cfg.num_seed_steps c (runLoop cfg env agent fuel k s).2 = true := by
  intro k
  induction k with
  | zero => intro s c h; simp [runLoop, warmupOK]
  | succ k ih =>
    intro s c h
    show warmupOK cfg.num_seed_steps c
      (if s.step < cfg.num_train_steps then
        (let r1 := runBody cfg env agent fuel s
         let r2 := runLoop cfg env agent fuel k r1.1
         (r2.1, r1.2 ++ r2.2)) else (s, [])).2 = true
    split
    · show warmupOK cfg.num_seed_steps c
        ((runBody cfg env agent fuel s).2 ++
          (runLoop cfg env agent fuel k (runBody cfg env agent fuel s).1).2) = true
      rw [warmupOK_append, runBody_warmupOK cfg env agent fuel s c h,
        runBody_countInserts]
      have hstep : (runBody cfg env agent fuel s).1.step ≤ c + 1 := by
        rw [runBody_step]; omega
      rw [ih (runBody cfg env agent fuel s).1 (c + 1) hstep]
      rfl
    · simp [warmupOK]

/-- C3: over any full execution of the training loop from a fresh
workspace, no learner update (hence no buffer sampling) ever occurs before
`num_seed_steps` insertions have been performed: every update event in the
run's trace is preceded by at least `cfg.num_seed_steps` insert events. -/
theorem updates_preceded_by_seed_insertions {σ : Type} (cfg : Cfg)
    (base : Env σ) (agent : Agent) (fuel : Nat) (es : σ) :
    warmupOK cfg.num_seed_steps 0
      ((Workspace.init cfg base).run agent fuel es).2 = true :=
  runLoop_warmupOK cfg (Workspace.init cfg base).env agent fuel
    cfg.num_train_steps (initRunState (Workspace.init cfg base) es) 0
    (Nat.le_refl 0)

theorem insertAll_append (b : ReplayBuffer) (l1 l2 : List Transition) :
    insertAll b (l1 ++ l2) = insertAll (insertAll b l1) l2 := by
  simp [insertAll, List.foldl_append]

theorem runLoop_buffer {σ : Type} (cfg : Cfg) (env : Env σ) (agent : Agent)
    (fuel : Nat) : ∀ (k : Nat) (s : RunState σ),
    (runLoop cfg env agent fuel k s).1.buffer =
      insertAll s.buffer (insertedTransitions (runLoop cfg env agent fuel k s).2) := by
  intro k
  induction k with
  | zero => intro s; simp [runLoop, insertedTransitions, insertAll]
  | succ k ih =>
    intro s
    show (if s.step < cfg.num_train_steps then
        (let r1 := runBody cfg env agent fuel s
         let r2 := runLoop cfg env agent fuel k r1.1
         (r2.1, r1.2 ++ r2.2)) else (s, [])).1.buffer =
      insertAll s.buffer (insertedTransitions
        (if s.step < cfg.num_train_steps then
          (let r1 := runBody cfg env agent fuel s
           let r2 := runLoop cfg env agent fuel k r1.1
           (r2.1, r1.2 ++ r2.2)) else (s, [])).2)
    split
    · show (runLoop cfg env agent fuel k (runBody cfg env agent fuel s).1).1.buffer =
        insertAll s.buffer (insertedTransitions
          ((runBody cfg env agent fuel s).2 ++
            (runLoop cfg env agent fuel k (runBody cfg env agent fuel s).1).2))
      rw [insertedTransitions_append, insertAll_append, ← runBody_buffer,
        ih (runBody cfg env agent fuel s).1]
    · simp [insertedTransitions, insertAll]

theorem runLoop_countInserts {σ : Type} (cfg : Cfg) (env : Env σ) (agent : Agent)
    (fuel : Nat) : ∀ (k : Nat) (s : RunState σ),
    countInserts (runLoop cfg env agent fuel k s).2 =
      min k (cfg.num_train_steps - s.step) := by
  intro k
  induction k with
  | zero => intro s; simp [runLoop, countInserts]
  | succ k ih =>
    intro s
    show countInserts (if s.step < cfg.num_train_steps then
        (let r1 := runBody cfg env agent fuel s
         let r2 := runLoop cfg env agent fuel k r1.1
         (r2.1, r1.2 ++ r2.2)) else (s, [])).2 = _
    split
    · rename_i hlt
      show countInserts ((runBody cfg env agent fuel s).2 ++
          (runLoop cfg env agent fuel k (runBody cfg env agent fuel s).1).2) = _
      rw [countInserts_append, runBody_countInserts,
        ih (runBody cfg env agent fuel s).1, runBody_step]
      omega
    · rename_i hge
      show countInserts ([] : List Event) = _
      simp [countInserts]
      omega

/-- C6: the buffer handle created at `Workspace.__init__` is the one the
whole run mutates, exclusively through insertion — after any number of
loop iterations the buffer equals the construction-time buffer with
exactly the trace's inserted transitions applied — and a run of at least
one step over a positive-capacity buffer leaves it non-empty (there is no
path back to the empty state short of reconstructing the workspace). -/
theorem buffer_created_once_mutated_by_insert_only {σ : Type} (cfg : Cfg)
    (base : Env σ) (agent : Agent) (fuel : Nat) (es : σ) (k : Nat)
    (hcap : 0 < cfg.replay_buffer_capacity) (hsteps : 0 < cfg.num_train_steps) :
    (runLoop cfg (Workspace.init cfg base).env agent fuel k
        (initRunState (Workspace.init cfg base) es)).1.buffer =
      insertAll (Workspace.init cfg base).buffer
        (insertedTransitions (runLoop cfg (Workspace.init cfg base).env agent fuel k
          (initRunState (Workspace.init cfg base) es)).2) ∧
    0 < ((Workspace.init cfg base).run agent fuel es).1.buffer.size := by
  constructor
  · exact runLoop_buffer cfg (Workspace.init cfg base).env agent fuel k
      (initRunState (Workspace.init cfg base) es)
  · have hbuf : ((Workspace.init cfg base).run agent fuel es).1.buffer =
        insertAll (Workspace.init cfg base).buffer
          (insertedTransitions ((Workspace.init cfg base).run agent fuel es).2) :=
      runLoop_buffer cfg (Workspace.init cfg base).env agent fuel
        cfg.num_train_steps (initRunState (Workspace.init cfg base) es)
    have hcount : countInserts ((Workspace.init cfg base).run agent fuel es).2 =
        min cfg.num_train_steps (cfg.num_train_steps - 0) :=
      runLoop_countInserts cfg (Workspace.init cfg base).env agent fuel
        cfg.num_train_steps (initRunState (Workspace.init cfg base) es)
    have hinv := insertAll_inv
      (insertedTransitions ((Workspace.init cfg base).run agent fuel es).2)
      (Workspace.init cfg base).buffer 0
      (by simp [Workspace.init, mkReplayBuffer])
      (by simp [Workspace.init, mkReplayBuffer])
    rw [hbuf, hinv.2.1]
    have hlen := insertedTransitions_length ((Workspace.init cfg base).run agent fuel es).2
    rw [hlen, hcount]
    show 0 < min (0 + min cfg.num_train_steps (cfg.num_train_steps - 0))
      cfg.replay_buffer_capacity
    omega

theorem buffer_created_once_mutated_by_insert_only_witness :
    (runLoop cfg0 (Workspace.init cfg0 unitEnv).env agent0 0 1
        (initRunState (Workspace.init cfg0 unitEnv) ())).1.buffer =
      insertAll (Workspace.init cfg0 unitEnv).buffer
        (insertedTransitions (runLoop cfg0 (Workspace.init cfg0 unitEnv).env agent0 0 1
          (initRunState (Workspace.init cfg0 unitEnv) ())).2) ∧
    0 < ((Workspace.init cfg0 unitEnv).run agent0 0 ()).1.buffer.size :=
  buffer_created_once_mutated_by_insert_only cfg0 unitEnv agent0 0 () 1
    (by decide) (by decide)

/-- One argument of the buffer constructor call, tagged by its role. -/
inductive CtorArg where
  | obsShapeArg : List Nat → CtorArg
  | actionShapeArg : List Nat → CtorArg
  | capacityArg : Nat → CtorArg
  | padArg : Nat → CtorArg
  | deviceArg : String → CtorArg
  | rngSeedArg : Nat → CtorArg
deriving DecidableEq

def CtorArg.isRngSeed : CtorArg → Bool
  | CtorArg.rngSeedArg _ => true
  | _ => false

/-- The argument tuple actually passed to `ReplayBuffer(...)` at train.py
lines 140-143: `self.env.observation_space.shape`,
`self.env.action_space.shape`, `cfg.replay_buffer_capacity`,
`self.cfg.image_pad`, `self.device` — five arguments.  No random source is
passed; seeding happens globally at line 128 via
`utils.set_seed_everywhere(cfg.seed)`. -/
def replayBufferCtorArgs {σ : Type} (cfg : Cfg) (env : Env σ) : List CtorArg :=
  [CtorArg.obsShapeArg env.obs_shape, CtorArg.actionShapeArg env.action_shape,
   CtorArg.capacityArg cfg.replay_buffer_capacity, CtorArg.padArg cfg.image_pad,
   CtorArg.deviceArg cfg.device]

/-- Modelled from the spec: "Construction: `(observation_shape,
action_shape, capacity, pad, device, rng_seed)` → Buffer" — the
constructor tuple the spec prescribes, whose last component injects an
explicit seedable random source into the buffer. -/
def specBufferCtorArgs {σ : Type} (cfg : Cfg) (env : Env σ) : List CtorArg :=
  [CtorArg.obsShapeArg env.obs_shape, CtorArg.actionShapeArg env.action_shape,
   CtorArg.capacityArg cfg.replay_buffer_capacity, CtorArg.padArg cfg.image_pad,
   CtorArg.deviceArg cfg.device, CtorArg.rngSeedArg cfg.seed]

/-- C2 fails on the code: at a concrete configuration the argument tuple
passed to the buffer constructor is not the spec's six-component tuple,
and none of its components is a random seed. -/
theorem buffer_ctor_args_match_spec_counterexample :
    replayBufferCtorArgs cfg0 unitEnv ≠ specBufferCtorArgs cfg0 unitEnv ∧
    (replayBufferCtorArgs cfg0 unitEnv).length = 5 ∧
    (replayBufferCtorArgs cfg0 unitEnv).all (fun a => !a.isRngSeed) = true := by
  decide

/-- C2 as amended: the buffer is constructed with exactly the five-tuple
`(observation_shape, action_shape, capacity, image_pad, device)`; no
seedable random source is injected into it — its randomness comes from
the hidden global generators seeded by `set_seed_everywhere(cfg.seed)`
at train.py line 128. -/
theorem buffer_ctor_five_args_no_rng {σ : Type} (cfg : Cfg) (base : Env σ) :
    replayBufferCtorArgs cfg (make_env cfg base) =
      [CtorArg.obsShapeArg (make_env cfg base).obs_shape,
       CtorArg.actionShapeArg (make_env cfg base).action_shape,
       CtorArg.capacityArg cfg.replay_buffer_capacity,
       CtorArg.padArg cfg.image_pad,
       CtorArg.deviceArg cfg.device] ∧
    (replayBufferCtorArgs cfg (make_env cfg base)).length = 5 ∧
    (replayBufferCtorArgs cfg (make_env cfg base)).all (fun a => !a.isRngSeed) = true ∧
    (Workspace.init cfg base).buffer =
      mkReplayBuffer (make_env cfg base).obs_shape (make_env cfg base).action_shape
        cfg.replay_buffer_capacity cfg.image_pad cfg.device := by
  refine ⟨rfl, rfl, ?_, rfl⟩
  simp [replayBufferCtorArgs, CtorArg.isRngSeed]
